import Mathlib

/-!
# Verification of the manosaba-text-box image pipeline core

Shallow embedding of `src/utils/core.ts` (and its duplicated variant): the
greedy per-character line wrap and SVG text-run generation of
`generateTextSvg`, the adaptive font-size search and handle lifecycle of
`drawUserText`, the resvg readiness gate `ensureResvgInitialized`, the lazy
vips gate, the alpha-widening discipline before `composite2`, and the
orchestration of `generateTextBoxImage`.

Numbers that are IEEE doubles in the JavaScript source are modelled as exact
rationals (`ℚ`); the only place a floating-point special value is observable
(`Math.max()` of an empty list is `-Infinity`) is modelled explicitly by the
`JsNum` type.
-/

namespace Manosaba

/-! ## Greedy per-character line wrap (`generateTextSvg`, core.ts lines 279-293)

The source iterates over the characters of `text`; when the current line has
already reached `maxCharsPerLine` characters it is closed and the new
character starts the next line; a nonempty trailing line is closed at the
end. -/

/-- Loop body of the wrap in `generateTextSvg`: `acc` is `lines`, `cur` is
`currentLine`, the third argument is the remaining input. -/
def wrapLoop (maxCharsPerLine : Nat) (acc : List (List Char)) (cur : List Char) :
    List Char → List (List Char)
  | [] => if cur.isEmpty then acc else acc ++ [cur]
  | c :: rest =>
      if maxCharsPerLine ≤ cur.length then
        wrapLoop maxCharsPerLine (acc ++ [cur]) [c] rest
      else
        wrapLoop maxCharsPerLine acc (cur ++ [c]) rest

/-- The line wrap of `generateTextSvg`: split `text` into lines of at most
`maxCharsPerLine` characters, greedily, one character at a time. -/
def wrapText (maxCharsPerLine : Nat) (text : List Char) : List (List Char) :=
  wrapLoop maxCharsPerLine [] [] text

/-! ## Adaptive font-size search (`drawUserText`, core.ts lines 376-402)

The loop tries `testFontSize = initialFontSize, initialFontSize - 6, …` while
`testFontSize >= 24`; for each size it computes
`maxCharsPerLine = floor(boxWidth / testFontSize)`,
`lineCount = ceil(text.length / maxCharsPerLine)` and
`svgHeight = lineCount * (testFontSize * 1.2) + testFontSize * 0.3`,
accepting the first size with `svgHeight <= boxHeight`.  If no size is
accepted, the variable `fontSize` keeps its initial value. -/

/-- The `lineCount` at a candidate size: `Math.ceil(text.length / maxCharsPerLine)`
with `maxCharsPerLine = Math.floor(boxWidth / testFontSize)`.  When
`maxCharsPerLine = 0` the JavaScript division yields `Infinity` (or `NaN` for
empty text), so no finite line count exists and the fit test below is false;
this is modelled by `none`. -/
def lineCountAt (textLen boxWidth testFontSize : Nat) : Option Nat :=
  let maxCharsPerLine := boxWidth / testFontSize
  if maxCharsPerLine = 0 then none
  else some ((textLen + maxCharsPerLine - 1) / maxCharsPerLine)

/-- The document height at a candidate size, exactly as computed by the
source: `lineCount * (testFontSize * 1.2) + testFontSize * 0.3`. -/
def svgHeightAt (lineCount testFontSize : Nat) : ℚ :=
  (lineCount : ℚ) * ((testFontSize : ℚ) * 1.2) + (testFontSize : ℚ) * 0.3

/-- The fit test of one loop iteration: `svgHeight <= boxHeight`.  Box
coordinates are integers in the source, so the exact rational comparison is
stated equivalently over naturals, scaled by 10 (`fitsAt_iff_height` below
shows the two agree). -/
def fitsAt (textLen boxWidth boxHeight testFontSize : Nat) : Bool :=
  match lineCountAt textLen boxWidth testFontSize with
  | none => false
  | some lineCount => 12 * lineCount * testFontSize + 3 * testFontSize ≤ 10 * boxHeight

/-- The scaled-integer fit test agrees with the source's rational height
comparison. -/
theorem fitsAt_iff_height (textLen boxWidth boxHeight testFontSize lineCount : Nat)
    (h : lineCountAt textLen boxWidth testFontSize = some lineCount) :
    fitsAt textLen boxWidth boxHeight testFontSize = true ↔
      svgHeightAt lineCount testFontSize ≤ (boxHeight : ℚ) := by
  rw [fitsAt, h, svgHeightAt, decide_eq_true_eq]
  constructor
  · intro hle
    have h10 : ((12 * lineCount * testFontSize + 3 * testFontSize : ℕ) : ℚ) ≤
        ((10 * boxHeight : ℕ) : ℚ) := by exact_mod_cast hle
    push_cast at h10
    norm_num
    linarith
  · intro hle
    norm_num at hle
    have h10 : ((12 * lineCount * testFontSize + 3 * testFontSize : ℕ) : ℚ) ≤
        ((10 * boxHeight : ℕ) : ℚ) := by push_cast; linarith
    exact_mod_cast h10

/-- The descending search loop of `drawUserText`: returns the first size
`t, t-6, t-12, …` (while ≥ 24) whose height fits, or `none` when the loop
exhausts. -/
def searchFontSize (textLen boxWidth boxHeight : Nat) (t : Nat) : Option Nat :=
  if h : 24 ≤ t then
    if fitsAt textLen boxWidth boxHeight t then some t
    else searchFontSize textLen boxWidth boxHeight (t - 6)
  else none
termination_by t
decreasing_by omega

/-- The font size `drawUserText` ends up using: the first fitting size from
the search, and the *initial* size when the loop exhausts without a fit
(the mutable `fontSize` variable is only overwritten on a successful fit). -/
def adjustedFontSize (textLen boxWidth boxHeight : Nat) (initialFontSize : Nat) : Nat :=
  (searchFontSize textLen boxWidth boxHeight initialFontSize).getD initialFontSize

/-- A successful search returns a size in the stepped range that fits. -/
theorem searchFontSize_some (textLen boxWidth boxHeight : Nat) :
    ∀ t s, searchFontSize textLen boxWidth boxHeight t = some s →
      24 ≤ s ∧ s ≤ t ∧ (t - s) % 6 = 0 ∧ fitsAt textLen boxWidth boxHeight s = true := by
  intro t
  induction t using Nat.strong_induction_on with
  | _ t ih =>
    intro s hs
    rw [searchFontSize.eq_def] at hs
    split at hs
    · next h24 =>
      split at hs
      · next hfit =>
        cases hs
        exact ⟨h24, le_refl _, by omega, hfit⟩
      · next hfit =>
        have h := ih (t - 6) (by omega) s hs
        exact ⟨h.1, by omega, by omega, h.2.2.2⟩
    · cases hs

/-- An exhausted search means no size in the stepped range fits. -/
theorem searchFontSize_none (textLen boxWidth boxHeight : Nat) :
    ∀ t, searchFontSize textLen boxWidth boxHeight t = none →
      ∀ s, 24 ≤ s → s ≤ t → (t - s) % 6 = 0 →
        fitsAt textLen boxWidth boxHeight s = false := by
  intro t
  induction t using Nat.strong_induction_on with
  | _ t ih =>
    intro hn s h24 hst hmod
    rw [searchFontSize.eq_def] at hn
    split at hn
    · next ht24 =>
      split at hn
      · cases hn
      · next hfit =>
        by_cases hts : s = t
        · subst hts
          simpa using hfit
        · exact ih (t - 6) (by omega) hn s h24 (by omega) (by omega)
    · next ht24 => omega

/-! ## Structural lemmas about the wrap -/

/-- When the whole remaining input fits on the current line, the wrap closes
exactly one more line holding everything. -/
theorem wrapLoop_small (m : Nat) (acc : List (List Char)) :
    ∀ rest cur : List Char, cur.length + rest.length ≤ m → (cur ≠ [] ∨ rest ≠ []) →
      wrapLoop m acc cur rest = acc ++ [cur ++ rest] := by
  intro rest
  induction rest with
  | nil =>
    intro cur hlen hne
    have hcur : cur ≠ [] := by
      rcases hne with h | h
      · exact h
      · exact absurd rfl h
    rw [wrapLoop]
    rw [if_neg (by simpa [List.isEmpty_iff] using hcur)]
    simp
  | cons c rest ih =>
    intro cur hlen hne
    rw [wrapLoop]
    rw [if_neg (by simp at hlen ⊢; omega)]
    rw [ih (cur ++ [c]) (by simp at hlen ⊢; omega) (by simp)]
    simp

/-- Every line produced by the wrap is nonempty and at most
`maxCharsPerLine` characters long (when `maxCharsPerLine ≥ 1`). -/
theorem wrapLoop_lines_bounded (m : Nat) (hm : 1 ≤ m) :
    ∀ (rest cur : List Char) (acc : List (List Char)),
      (∀ l ∈ acc, l ≠ [] ∧ l.length ≤ m) → cur.length ≤ m →
      ∀ l ∈ wrapLoop m acc cur rest, l ≠ [] ∧ l.length ≤ m := by
  intro rest
  induction rest with
  | nil =>
    intro cur acc hacc hcur l hl
    rw [wrapLoop] at hl
    split at hl
    · exact hacc l hl
    · next hne =>
      rcases List.mem_append.mp hl with h | h
      · exact hacc l h
      · simp at h
        subst h
        exact ⟨by simpa [List.isEmpty_iff] using hne, hcur⟩
  | cons c rest ih =>
    intro cur acc hacc hcur l hl
    rw [wrapLoop] at hl
    split at hl
    · next hge =>
      refine ih [c] (acc ++ [cur]) ?_ (by simpa using hm) l hl
      intro l' hl'
      rcases List.mem_append.mp hl' with h | h
      · exact hacc l' h
      · simp at h
        subst h
        refine ⟨?_, hcur⟩
        intro hnil
        subst hnil
        simp at hge
        omega
    · next hlt =>
      refine ih (cur ++ [c]) acc hacc ?_ l hl
      simp at hlt ⊢
      omega

/-! ## Text runs of the generated vector documents

One `TextRun` stands for one `<text …>…</text>` element of the generated
markup, carrying the attributes the source writes: position, fill color,
`fill-opacity` (1 when the attribute is absent, i.e. the SVG default), and
the escaped line content.  The string concatenation of the source is
abstracted into the ordered list of emitted elements. -/

structure TextRun where
  x : ℚ
  y : ℚ
  fill : String
  fillOpacity : ℚ
  content : List Char
deriving DecidableEq, Repr

/-- The two elements `generateTextSvg` emits for the line at `index`
(core.ts lines 310-319): a black half-opacity run at `(2, y+2)` followed by
the colored run at `(0, y)`, with `y = fontSize + index * lineHeight`. -/
def lineRuns (fontSize : ℚ) (color : String) (index : Nat) (line : List Char) :
    List TextRun :=
  let lineHeight := fontSize * 1.2
  let y := fontSize + (index : ℚ) * lineHeight
  [ { x := 2, y := y + 2, fill := "#000000", fillOpacity := 0.5, content := line },
    { x := 0, y := y, fill := color, fillOpacity := 1, content := line } ]

/-- All text runs of the wrapped user-caption document, in emission order. -/
def generateTextSvgRuns (text : List Char) (width fontSize : Nat) (color : String) :
    List TextRun :=
  let lines := wrapText (width / fontSize) text
  lines.enum.flatMap fun p => lineRuns (fontSize : ℚ) color p.1 p.2

/-- The two elements of one single-line name-caption document
(`generateBaseImage`, core.ts lines 215-220): a black run at
`(2, baselineY+2)` — with no `fill-opacity` attribute, hence opacity 1 —
followed by the colored run at `(0, baselineY)`,
`baselineY = font_size * 1.2`. -/
def nameCaptionRuns (fontSize : ℚ) (color : String) (text : List Char) :
    List TextRun :=
  let baselineY := fontSize * 1.2
  [ { x := 2, y := baselineY + 2, fill := "#000000", fillOpacity := 1, content := text },
    { x := 0, y := baselineY, fill := color, fillOpacity := 1, content := text } ]

/-! ## The declared width of the user-caption document

`svgWidth = Math.max(...lines.map(l => l.length)) * fontSize + 4` is IEEE
double arithmetic: `Math.max()` of an empty spread is `-Infinity`, and the
subsequent `*`/`+` follow the IEEE special-value rules.  `JsNum` models a
JavaScript number as an exact rational or one of the special values, with
exactly those rules. -/

inductive JsNum where
  | num (q : ℚ)
  | posInf
  | negInf
  | nan
deriving DecidableEq, Repr

/-- IEEE multiplication on the modelled values. -/
def jsMul : JsNum → JsNum → JsNum
  | .nan, _ => .nan
  | .num _, .nan => .nan
  | .posInf, .nan => .nan
  | .negInf, .nan => .nan
  | .num a, .num b => .num (a * b)
  | .num a, .posInf => if 0 < a then .posInf else if a < 0 then .negInf else .nan
  | .num a, .negInf => if 0 < a then .negInf else if a < 0 then .posInf else .nan
  | .posInf, .num b => if 0 < b then .posInf else if b < 0 then .negInf else .nan
  | .negInf, .num b => if 0 < b then .negInf else if b < 0 then .posInf else .nan
  | .posInf, .posInf => .posInf
  | .posInf, .negInf => .negInf
  | .negInf, .posInf => .negInf
  | .negInf, .negInf => .posInf

/-- IEEE addition on the modelled values. -/
def jsAdd : JsNum → JsNum → JsNum
  | .nan, _ => .nan
  | .num _, .nan => .nan
  | .posInf, .nan => .nan
  | .negInf, .nan => .nan
  | .num a, .num b => .num (a + b)
  | .num _, .posInf => .posInf
  | .num _, .negInf => .negInf
  | .posInf, .num _ => .posInf
  | .negInf, .num _ => .negInf
  | .posInf, .posInf => .posInf
  | .negInf, .negInf => .negInf
  | .posInf, .negInf => .nan
  | .negInf, .posInf => .nan

/-- The value `Math.max(...lines.map(line => line.length))`: `-Infinity` on an empty
list of lines, the largest line length otherwise. -/
def jsMaxLineLength (lines : List (List Char)) : JsNum :=
  match lines.map List.length with
  | [] => .negInf
  | n :: ns => .num ((ns.foldl max n : Nat) : ℚ)

/-- The declared `width` attribute of the user-caption document:
`maxLineLength * fontSize + 4`. -/
def generateTextSvgWidth (text : List Char) (width fontSize : Nat) : JsNum :=
  jsAdd (jsMul (jsMaxLineLength (wrapText (width / fontSize) text)) (.num (fontSize : ℚ)))
    (.num 4)

/-! ## Alpha widening before `composite2` (`drawUserText`, core.ts 362-365 and 434-437)

A raster image is characterised by its band count and whether its
interpretation is CMYK.  `hasAlpha` is vips's `vips_image_hasalpha` rule;
`bandjoin 255` appends one constant band.  The band-count requirement of
`composite2` is stated by the repository's own comment at core.ts line 361
(「composite2 需要两个图片的 bands 相同」) and by the interface contract the
design documents for `compositeOver`: both operands must have identical band
counts, otherwise the call raises a band-mismatch error. -/

structure VipsImage where
  bands : Nat
  cmyk : Bool
deriving DecidableEq, Repr

/-- The vips `hasAlpha()` rule: a 2-band image, a 4-band non-CMYK image, or a 5-band
CMYK image. -/
def hasAlpha (im : VipsImage) : Bool :=
  im.bands == 2 || (im.bands == 4 && !im.cmyk) || (im.bands == 5 && im.cmyk)

/-- The widening call `image.bandjoin(255)`: append one fully-opaque constant band. -/
def bandjoin255 (im : VipsImage) : VipsImage :=
  { im with bands := im.bands + 1 }

/-- The widening step `drawUserText` applies to each composite operand:
`if (!image.hasAlpha()) image = image.bandjoin(255)`. -/
def ensureAlpha (im : VipsImage) : VipsImage :=
  if hasAlpha im then im else bandjoin255 im

/-- The call `composite2` succeeds (no band-mismatch error) iff the operands have the
same number of bands — the precondition stated by the source comment and the
interface contract. -/
def composite2Ok (base overlay : VipsImage) : Bool :=
  base.bands == overlay.bands

/-! ## `ensureResvgInitialized` (core.ts lines 37-67)

The global readiness state holds the `initialized` flag and whether an
`initializing` promise is currently stored (non-null).  One call observes
the outcome of the attempt that governs it — the attempt it creates, or the
in-flight attempt it awaits: `initWasm` succeeds, fails with a message
containing "Already initialized", or fails otherwise. -/

structure ResvgState where
  ready : Bool
  inflight : Bool
deriving DecidableEq, Repr

inductive InitOutcome where
  | ok
  | alreadyInit
  | fail
deriving DecidableEq, Repr

/-- One call to `ensureResvgInitialized`.  Returns the new global state and
`Except`: `.ok` when the call returns normally, `.error` when it throws.
If the flag is set the call returns at once.  Otherwise the governing
attempt runs with outcome `o`: on success or on an "Already initialized"
error it sets the flag (leaving the stored promise in place) and the call
returns; on any other error the attempt clears the stored promise, leaves
the flag unset, and the error propagates out of the call. -/
def ensureResvgCall (s : ResvgState) (o : InitOutcome) : ResvgState × Except String Unit :=
  if s.ready then (s, .ok ())
  else
    match o with
    | .ok => ({ ready := true, inflight := true }, .ok ())
    | .alreadyInit => ({ ready := true, inflight := true }, .ok ())
    | .fail => ({ ready := false, inflight := false }, .error ("Failed to initialize resvg"))

/-! ## The one-time gates under concurrent first-time callers (core.ts 11-35, 37-67)

The embedding host is a single-threaded cooperative event loop: a caller's
path through the gate — the `initialized`/`initializing` checks and, when
both fail, storing a fresh attempt — runs synchronously, with no suspension
point inside it, so each passage is one atomic `arrive` event.  The one
suspension is awaiting the attempt; the attempt resolving (successfully) is
the atomic `complete` event, which releases every waiting caller.  The same
shape models the lazy `vipsPromise` gate of `initVips`/`getVips`: the
null-check and assignment of `vipsPromise` are synchronous, and all callers
await the one stored promise.  `initCount` counts underlying
initializations actually started. -/

structure GateRun where
  ready : Bool
  inflight : Bool
  initCount : Nat
  waiting : Nat
  finished : Nat
deriving DecidableEq, Repr

inductive GateEvent where
  | arrive
  | complete
deriving DecidableEq, Repr

/-- One atomic scheduler event at the gate. -/
def gateStep (s : GateRun) : GateEvent → GateRun
  | .arrive =>
    if s.ready then { s with finished := s.finished + 1 }
    else if s.inflight then { s with waiting := s.waiting + 1 }
    else { s with inflight := true, initCount := s.initCount + 1, waiting := s.waiting + 1 }
  | .complete =>
    if s.inflight && !s.ready then
      { s with ready := true, finished := s.finished + s.waiting, waiting := 0 }
    else s

/-- Run a schedule of events against the fresh, never-initialized gate. -/
def gateRun (es : List GateEvent) : GateRun :=
  es.foldl gateStep ⟨false, false, 0, 0, 0⟩

/-! ## Handle lifecycle of `drawUserText` (core.ts lines 331-490)

The function body is a `try { … } catch { return baseImage } finally { … }`
over straight-line native calls.  Each fallible native call is a `Step`; a
failure injection `fails : Step → Bool` says which call throws.  RasterImage
handles are numbered in allocation order and recorded in the event trace;
the `finally` block disposes the *current* values of the variables
`result`, `textImage`, `image` — in that order — each dispose wrapped in its
own `try { … } catch {}`.  A dispose whose native call fails is recorded as
`releaseFailed` and swallowed.  Crucially, the source widens with
`image = image.bandjoin(255)` / `textImage = textImage.bandjoin(255)`,
overwriting the variable: the pre-widening handle is dropped without a
dispose call. -/

inductive Step where
  | ensureResvg
  | loadBase
  | widenBase
  | readFont
  | renderSvg
  | loadText
  | widenText
  | composite
  | encode
deriving DecidableEq, Repr

inductive Ev where
  | alloc (id : Nat)
  | release (id : Nat)
  | releaseFailed (id : Nat)
deriving DecidableEq, Repr

structure DrawSt where
  events : List Ev
  next : Nat
  image : Option Nat
  textImage : Option Nat
  resultImg : Option Nat
deriving DecidableEq, Repr

def DrawSt.start : DrawSt := ⟨[], 0, none, none, none⟩

/-- Allocate the next RasterImage handle and record it. -/
def allocHandle (s : DrawSt) : Nat × DrawSt :=
  (s.next, { s with events := s.events ++ [.alloc s.next], next := s.next + 1 })

/-- Run one fallible native call: on failure, throw to the `catch` with the
state as it stands. -/
def stepOr (st : Step) (fails : Step → Bool) (s : DrawSt) : Except DrawSt DrawSt :=
  if fails st then .error s else .ok s

/-- The `try` body of `drawUserText`, in source order: ensure resvg, load
the base (alloc), widen it if it lacks alpha (alloc, old handle dropped),
read the font, run the search and render the SVG, load the rendered text
(alloc), widen it if it lacks alpha (alloc, old handle dropped), composite
(alloc), encode. -/
def drawTryBody (hasAlphaBase hasAlphaText : Bool) (fails : Step → Bool) :
    Except DrawSt DrawSt := do
  let s ← stepOr .ensureResvg fails .start
  let s ← stepOr .loadBase fails s
  let (h, s) := allocHandle s
  let s := { s with image := some h }
  let s ← if hasAlphaBase then pure s else do
      let s ← stepOr .widenBase fails s
      let (h, s) := allocHandle s
      pure { s with image := some h }
  let s ← stepOr .readFont fails s
  let s ← stepOr .renderSvg fails s
  let s ← stepOr .loadText fails s
  let (h, s) := allocHandle s
  let s := { s with textImage := some h }
  let s ← if hasAlphaText then pure s else do
      let s ← stepOr .widenText fails s
      let (h, s) := allocHandle s
      pure { s with textImage := some h }
  let s ← stepOr .composite fails s
  let (h, s) := allocHandle s
  let s := { s with resultImg := some h }
  let s ← stepOr .encode fails s
  pure s

/-- One guarded dispose: `try { v[Symbol.dispose]() } catch (_e) {}`. -/
def disposeEvents (releaseFails : Nat → Bool) : Option Nat → List Ev
  | none => []
  | some id => if releaseFails id then [.releaseFailed id] else [.release id]

/-- The `finally` block: dispose `result`, then `textImage`, then `image`. -/
def finallyEvents (releaseFails : Nat → Bool) (s : DrawSt) : List Ev :=
  disposeEvents releaseFails s.resultImg ++ disposeEvents releaseFails s.textImage ++
    disposeEvents releaseFails s.image

/-- What `drawUserText` returns: the freshly encoded composite, or — from
the `catch` block — the `baseImage` argument unchanged. -/
inductive DrawResult where
  | drawn
  | fallbackBase
deriving DecidableEq, Repr

structure DrawOutcome where
  result : DrawResult
  events : List Ev
deriving DecidableEq, Repr

/-- The whole of `drawUserText`: run the `try` body; on a throw the `catch`
selects the base-image fallback; the `finally` disposes run in both cases.
The function itself never throws. -/
def drawUserTextModel (hasAlphaBase hasAlphaText : Bool) (fails : Step → Bool)
    (releaseFails : Nat → Bool) : DrawOutcome :=
  match drawTryBody hasAlphaBase hasAlphaText fails with
  | .ok s => ⟨.drawn, s.events ++ finallyEvents releaseFails s⟩
  | .error s => ⟨.fallbackBase, s.events ++ finallyEvents releaseFails s⟩

/-- How often a dispose of handle `id` was attempted (successfully or not). -/
def releaseAttempts (es : List Ev) (id : Nat) : Nat :=
  es.count (.release id) + es.count (.releaseFailed id)

/-! ## The orchestrator `generateTextBoxImage` (core.ts lines 495-534)

The unknown-character check is the first statement, before the random
index selection and before any native call.  `generateBaseImage` is modelled
at the granularity of its background/character/composite/encode steps with
handles `0` (background), `1` (character), `2` (composite result); its
`finally` disposes `result`, `charImage`, `bgImage` in that order.  Base
stage errors propagate out of the orchestrator; the user-caption stage is
`drawUserTextModel` (whose handle numbering restarts — the two traces are
separate operations). -/

structure CharacterMeta where
  full_name : String
  emotion_count : Nat
  font : String
deriving DecidableEq, Repr

inductive BStep where
  | loadBackground
  | loadCharacter
  | compositeBase
  | encodeBase
deriving DecidableEq, Repr

/-- Coarse trace of `generateBaseImage` (core.ts 166-267): success flag and
handle events, including the `finally` disposes on each exit path. -/
def generateBaseImageModel (bfails : BStep → Bool) : Bool × List Ev :=
  if bfails .loadBackground then (false, [])
  else if bfails .loadCharacter then (false, [.alloc 0, .release 0])
  else if bfails .compositeBase then
    (false, [.alloc 0, .alloc 1, .release 1, .release 0])
  else if bfails .encodeBase then
    (false, [.alloc 0, .alloc 1, .alloc 2, .release 2, .release 1, .release 0])
  else (true, [.alloc 0, .alloc 1, .alloc 2, .release 2, .release 1, .release 0])

/-- The orchestrator `generateTextBoxImage`: reject an unknown character before anything
else; then build the base image (errors abort); then draw the user text
(never throws — degrades to the base image). -/
def generateTextBoxImageModel (catalog : List (String × CharacterMeta))
    (character : String) (bfails : BStep → Bool) (hasAlphaBase hasAlphaText : Bool)
    (fails : Step → Bool) (releaseFails : Nat → Bool) :
    Except String DrawResult × List Ev :=
  match catalog.lookup character with
  | none => (.error ("Unknown character: " ++ character), [])
  | some _meta =>
    match generateBaseImageModel bfails with
    | (false, es) => (.error ("base image failed"), es)
    | (true, es) =>
      let o := drawUserTextModel hasAlphaBase hasAlphaText fails releaseFails
      (.ok o.result, es ++ o.events)

/-! # The claims -/

/-- C1, counterexample.  At `textLen = 100`, box `200 × 10`, start size 36,
no size in the stepped range `{36, 30, 24}` fits, yet the size used for the
document is the *start* size 36, not the minimum 24: the loop variable
`fontSize` keeps its initial value when the search exhausts. -/
theorem fontSize_no_fit_uses_start_cex :
    fitsAt 100 200 10 36 = false ∧ fitsAt 100 200 10 30 = false ∧
    fitsAt 100 200 10 24 = false ∧
    adjustedFontSize 100 200 10 36 = 36 ∧ ¬ adjustedFontSize 100 200 10 36 = 24 := by
  refine ⟨by decide, by decide, by decide, ?_, ?_⟩ <;>
    simp [adjustedFontSize, searchFontSize, fitsAt, lineCountAt]

/-- C1 (amended): for every text and box with a valid font-size range
(start ≥ 24), the adaptive search returns a size in `[24, start]`; whenever
some size in the stepped range `{start, start-6, …}` fits, the chosen size
fits; and when no size in the range fits, the *initial* size `start` is the
size used for the generated document (not the minimum 24). -/
theorem adjustedFontSize_search_spec (textLen boxWidth boxHeight start : Nat)
    (hstart : 24 ≤ start) :
    (24 ≤ adjustedFontSize textLen boxWidth boxHeight start ∧
      adjustedFontSize textLen boxWidth boxHeight start ≤ start) ∧
    ((∃ s, 24 ≤ s ∧ s ≤ start ∧ (start - s) % 6 = 0 ∧
        fitsAt textLen boxWidth boxHeight s = true) →
      fitsAt textLen boxWidth boxHeight
        (adjustedFontSize textLen boxWidth boxHeight start) = true) ∧
    ((∀ s, 24 ≤ s → s ≤ start → (start - s) % 6 = 0 →
        fitsAt textLen boxWidth boxHeight s = false) →
      adjustedFontSize textLen boxWidth boxHeight start = start) := by
  rcases hse : searchFontSize textLen boxWidth boxHeight start with _ | s
  · have hid : adjustedFontSize textLen boxWidth boxHeight start = start := by
      rw [adjustedFontSize, hse]
      rfl
    refine ⟨⟨by omega, by omega⟩, ?_, fun _ => hid⟩
    rintro ⟨s, h24, hs, hmod, hfit⟩
    have hnone := searchFontSize_none textLen boxWidth boxHeight start hse s h24 hs hmod
    rw [hnone] at hfit
    cases hfit
  · have h := searchFontSize_some textLen boxWidth boxHeight start s hse
    have hid : adjustedFontSize textLen boxWidth boxHeight start = s := by
      rw [adjustedFontSize, hse]
      rfl
    refine ⟨⟨by omega, by omega⟩, fun _ => by rw [hid]; exact h.2.2.2, ?_⟩
    intro hall
    have hc := hall s h.1 h.2.1 h.2.2.1
    rw [h.2.2.2] at hc
    cases hc

/-- C1 witness: the spec's own example — 4 characters, the 1611×445 user
box, start size 120 — where size 120 fits and is chosen. -/
theorem adjustedFontSize_search_spec_witness :
    (24 ≤ adjustedFontSize 4 1611 445 120 ∧ adjustedFontSize 4 1611 445 120 ≤ 120) ∧
    adjustedFontSize 4 1611 445 120 = 120 :=
  ⟨(adjustedFontSize_search_spec 4 1611 445 120 (by decide)).1,
    by simp [adjustedFontSize, searchFontSize, fitsAt, lineCountAt]⟩

/-- C8: line wrapping is idempotent — for `maxCharsPerLine ≥ 1`, re-wrapping
any line produced by the greedy per-character wrap (with the same
`maxCharsPerLine`) yields exactly that single line. -/
theorem wrapText_idempotent (m : Nat) (text : List Char) (hm : 1 ≤ m) :
    ∀ line ∈ wrapText m text, wrapText m line = [line] := by
  intro line hline
  have hb := wrapLoop_lines_bounded m hm text [] []
    (by intro l hl; cases hl) (by simp) line hline
  show wrapLoop m [] [] line = [line]
  rw [wrapLoop_small m [] line [] (by simpa using hb.2) (Or.inr hb.1)]
  simp

/-- C8 witness: wrapping `"abcd"` at width 3 produces `["abc", "d"]`, and
re-wrapping the produced line `"abc"` yields exactly `["abc"]`. -/
theorem wrapText_idempotent_witness :
    wrapText 3 ['a', 'b', 'c', 'd'] = [['a', 'b', 'c'], ['d']] ∧
    wrapText 3 ['a', 'b', 'c'] = [['a', 'b', 'c']] :=
  ⟨by decide,
    wrapText_idempotent 3 ['a', 'b', 'c', 'd'] (by decide) ['a', 'b', 'c'] (by decide)⟩

/-- C10: for empty user text `generateTextSvg` wraps into zero lines, emits
zero text runs, and declares document width `-Infinity` (the `Math.max` of
an empty list of line lengths, times the positive font size, plus 4), so
the document for empty text never has a positive declared width. -/
theorem generateTextSvg_empty_doc (width fontSize : Nat) (color : String)
    (h : 1 ≤ fontSize) :
    wrapText (width / fontSize) [] = [] ∧
    generateTextSvgRuns [] width fontSize color = [] ∧
    generateTextSvgWidth [] width fontSize = JsNum.negInf := by
  refine ⟨rfl, rfl, ?_⟩
  have h0 : (0 : ℚ) < (fontSize : ℚ) := by exact_mod_cast h
  show jsAdd (jsMul JsNum.negInf (.num (fontSize : ℚ))) (.num 4) = JsNum.negInf
  rw [jsMul]
  rw [if_pos h0]
  rfl

/-- C10 witness: the pipeline's own parameters (1611-pixel-wide box, font
size 120). -/
theorem generateTextSvg_empty_doc_witness :
    generateTextSvgRuns [] 1611 120 "#FFFFFF" = [] ∧
    generateTextSvgWidth [] 1611 120 = JsNum.negInf :=
  ⟨(generateTextSvg_empty_doc 1611 120 "#FFFFFF" (by decide)).2.1,
    (generateTextSvg_empty_doc 1611 120 "#FFFFFF" (by decide)).2.2⟩

/-- C2 (the code violates the release discipline): on the success path with
a base image lacking an alpha channel, the pre-widening base handle
(handle 0) is allocated but its dispose is never attempted — the variable
is overwritten by `image = image.bandjoin(255)` — while the widened copy,
the text image and the composite are each released exactly once. -/
theorem drawUserText_preWiden_leak :
    (drawUserTextModel false true (fun _ => false) (fun _ => false)).events =
      [.alloc 0, .alloc 1, .alloc 2, .alloc 3, .release 3, .release 2, .release 1] ∧
    (drawUserTextModel false true (fun _ => false) (fun _ => false)).events.count
      (Ev.alloc 0) = 1 ∧
    releaseAttempts
      (drawUserTextModel false true (fun _ => false) (fun _ => false)).events 0 = 0 ∧
    (drawUserTextModel false true (fun _ => false) (fun _ => false)).result =
      .drawn := by
  decide

/-- C3: any failure inside the `try` body of the user-caption stage makes
`drawUserText` return the pre-caption base image (it never throws); every
one of the stage's native calls — resvg init, base decode, base widening,
font read, vector render, text-image load, text widening, composite, final
encode — failing alone produces the fallback; and a base-image construction
failure aborts the whole `generateTextBoxImage` request with an error. -/
theorem drawUserText_best_effort :
    (∀ (hb ht : Bool) (fails : Step → Bool) (rf : Nat → Bool),
      (drawUserTextModel hb ht fails rf).result = .fallbackBase ↔
        (drawTryBody hb ht fails).isOk = false) ∧
    (∀ (st : Step) (rf : Nat → Bool),
      (drawUserTextModel false false (fun s => s == st) rf).result = .fallbackBase) ∧
    (∀ (catalog : List (String × CharacterMeta)) (character : String)
        (meta : CharacterMeta) (bfails : BStep → Bool) (hb ht : Bool)
        (fails : Step → Bool) (rf : Nat → Bool),
      List.lookup character catalog = some meta →
      (generateBaseImageModel bfails).1 = false →
      (generateTextBoxImageModel catalog character bfails hb ht fails rf).1 =
        .error ("base image failed")) := by
  refine ⟨?_, ?_, ?_⟩
  · intro hb ht fails rf
    cases h : drawTryBody hb ht fails <;>
      simp [drawUserTextModel, h, Except.isOk, Except.toBool]
  · intro st rf
    cases st <;> rfl
  · intro catalog character meta bfails hb ht fails rf hlook hbase
    simp only [generateTextBoxImageModel]
    rw [hlook]
    rcases hgb : generateBaseImageModel bfails with ⟨b, es⟩
    rw [hgb] at hbase
    simp only at hbase
    subst hbase
    rfl

/-- C3 witness: a catalog with one character; the base stage fails; the
request errors out. -/
theorem drawUserText_best_effort_witness :
    (generateTextBoxImageModel [("sirius", ⟨"Sirius", 22, "font3.ttf"⟩)] "sirius"
        (fun _ => true) true true (fun _ => false) (fun _ => false)).1 =
      .error ("base image failed") :=
  drawUserText_best_effort.2.2 [("sirius", ⟨"Sirius", 22, "font3.ttf"⟩)] "sirius"
    ⟨"Sirius", 22, "font3.ttf"⟩ (fun _ => true) true true (fun _ => false)
    (fun _ => false) (by decide) (by decide)

/-- C4: from any not-yet-ready state, an attempt failing with the
"Already initialized" message is a success outcome — the flag is set and the
call returns normally; any other failure leaves the state fully
uninitialized (flag unset, stored promise cleared) and the error propagates,
and a subsequent call then performs a fresh, successful initialization. -/
theorem ensureResvgInitialized_outcomes (s : ResvgState) (h : s.ready = false) :
    ensureResvgCall s .alreadyInit = ({ ready := true, inflight := true }, .ok ()) ∧
    (ensureResvgCall s .fail).1 = { ready := false, inflight := false } ∧
    (ensureResvgCall s .fail).2 = .error ("Failed to initialize resvg") ∧
    ensureResvgCall (ensureResvgCall s .fail).1 .ok =
      ({ ready := true, inflight := true }, .ok ()) := by
  simp [ensureResvgCall, h]

/-- C4 witness: the fresh state. -/
theorem ensureResvgInitialized_outcomes_witness :
    ensureResvgCall ⟨false, false⟩ .alreadyInit =
      ({ ready := true, inflight := true }, .ok ()) :=
  (ensureResvgInitialized_outcomes ⟨false, false⟩ rfl).1

/-- C5: a character id absent from the catalog makes `generateTextBoxImage`
fail with the "Unknown character" error before anything else: no raster
handle is acquired and no output is produced (the event trace is empty). -/
theorem generateTextBoxImage_unknown_character (catalog : List (String × CharacterMeta))
    (character : String) (bfails : BStep → Bool) (hb ht : Bool) (fails : Step → Bool)
    (rf : Nat → Bool) (h : List.lookup character catalog = none) :
    generateTextBoxImageModel catalog character bfails hb ht fails rf =
      (.error ("Unknown character: " ++ character), []) := by
  simp only [generateTextBoxImageModel]
  rw [h]

/-- C5 witness: a one-character catalog and an id not in it. -/
theorem generateTextBoxImage_unknown_character_witness :
    generateTextBoxImageModel [("sirius", ⟨"Sirius", 22, "font3.ttf"⟩)] "akane"
        (fun _ => false) true true (fun _ => false) (fun _ => false) =
      (.error ("Unknown character: akane"), []) :=
  generateTextBoxImage_unknown_character [("sirius", ⟨"Sirius", 22, "font3.ttf"⟩)]
    "akane" (fun _ => false) true true (fun _ => false) (fun _ => false) (by decide)

/-- C6, counterexample: a 1-band (grayscale, no alpha) base is widened to 2
bands and a 4-band RGBA overlay keeps its 4 — both operands end up with an
alpha channel, yet their band counts differ, so the composite still raises
a band-mismatch error; the claim's "for every pair of input images" is
false. -/
theorem composite_band_mismatch_cex :
    hasAlpha (ensureAlpha ⟨1, false⟩) = true ∧
    hasAlpha (ensureAlpha ⟨4, false⟩) = true ∧
    composite2Ok (ensureAlpha ⟨1, false⟩) (ensureAlpha ⟨4, false⟩) = false := by
  decide

/-- C6 (amended): for operands with 3 or 4 bands and non-CMYK
interpretation — the RGB/RGBA shapes the pipeline's AVIF and PNG decodes
produce — the widening step leaves both with an alpha channel and exactly
4 bands, so the final composite never raises a band-mismatch error. -/
theorem composite_after_widening_ok (base overlay : VipsImage)
    (hb : base.bands = 3 ∨ base.bands = 4) (ho : overlay.bands = 3 ∨ overlay.bands = 4)
    (hbc : base.cmyk = false) (hoc : overlay.cmyk = false) :
    hasAlpha (ensureAlpha base) = true ∧ hasAlpha (ensureAlpha overlay) = true ∧
    composite2Ok (ensureAlpha base) (ensureAlpha overlay) = true := by
  obtain ⟨b, bc⟩ := base
  obtain ⟨ob, oc⟩ := overlay
  simp only at hb ho hbc hoc
  subst hbc
  subst hoc
  rcases hb with rfl | rfl <;> rcases ho with rfl | rfl <;> exact ⟨rfl, rfl, rfl⟩

/-- C6 witness: an RGB base (3 bands, widened) under an RGBA overlay
(4 bands, untouched). -/
theorem composite_after_widening_ok_witness :
    hasAlpha (ensureAlpha ⟨3, false⟩) = true ∧ hasAlpha (ensureAlpha ⟨4, false⟩) = true ∧
    composite2Ok (ensureAlpha ⟨3, false⟩) (ensureAlpha ⟨4, false⟩) = true :=
  composite_after_widening_ok ⟨3, false⟩ ⟨4, false⟩ (Or.inl rfl) (Or.inr rfl) rfl rfl

/-! ## The claimed shadow-then-fill run discipline (C7)

`ShadowFillPair` and `ShadowFillRuns` state the claim's words about a
document's run list: per line, first a drop-shadow run offset by `(+2, +2)`
from the fill run in black — at reduced opacity when `shadowReduced` is set —
then the fill run at `x = 0` in the requested color at full opacity. -/

def ShadowFillPair (color : String) (shadowReduced : Bool)
    (sh fi : TextRun) (line : List Char) : Prop :=
  sh.x = fi.x + 2 ∧ sh.y = fi.y + 2 ∧ sh.fill = "#000000" ∧
    (if shadowReduced then sh.fillOpacity < 1 else sh.fillOpacity = 1) ∧
    sh.content = line ∧
    fi.x = 0 ∧ fi.fill = color ∧ fi.fillOpacity = 1 ∧ fi.content = line

def ShadowFillRuns (color : String) (shadowReduced : Bool) :
    List (List Char) → List TextRun → Prop
  | [], rs => rs = []
  | line :: lines, rs =>
      ∃ sh fi rest, rs = sh :: fi :: rest ∧
        ShadowFillPair color shadowReduced sh fi line ∧
        ShadowFillRuns color shadowReduced lines rest

/-- The emission loop of `generateTextSvg` satisfies the shadow-then-fill
discipline with a reduced-opacity shadow, from any enumeration offset. -/
theorem shadowFillRuns_enumFrom (fontSize : ℚ) (color : String) :
    ∀ (lines : List (List Char)) (n : Nat),
      ShadowFillRuns color true lines
        ((List.enumFrom n lines).flatMap fun p => lineRuns fontSize color p.1 p.2) := by
  intro lines
  induction lines with
  | nil => intro n; rfl
  | cons line lines ih =>
    intro n
    refine ⟨_, _, _, rfl, ?_, ih (n + 1)⟩
    refine ⟨by norm_num [lineRuns], rfl, rfl, ?_, rfl, rfl, rfl, rfl, rfl⟩
    norm_num [lineRuns]

/-- C7 (amended): in every generated vector document each line is emitted as
two overlaid runs, drop shadow first — offset by `(+2, +2)`, black — and the
fill second, at `x = 0` in the requested color, in that paint order; the
shadow is at reduced opacity (0.5) in the wrapped user-caption document, but
at *full* opacity in the single-line name-caption documents, whose shadow
`<text>` element carries no `fill-opacity` attribute. -/
theorem svg_documents_shadow_then_fill (text : List Char) (width fontSize : Nat)
    (color : String) (nameText : List Char) (nameFontSize : ℚ) (nameColor : String) :
    ShadowFillRuns color true (wrapText (width / fontSize) text)
      (generateTextSvgRuns text width fontSize color) ∧
    ShadowFillRuns nameColor false [nameText]
      (nameCaptionRuns nameFontSize nameColor nameText) := by
  constructor
  · exact shadowFillRuns_enumFrom (fontSize : ℚ) color (wrapText (width / fontSize) text) 0
  · refine ⟨_, _, _, rfl, ?_, rfl⟩
    exact ⟨by norm_num [nameCaptionRuns], rfl, rfl, by simp [nameCaptionRuns], rfl, rfl,
      rfl, rfl, rfl⟩

/-- C7, counterexample: the name-caption document's shadow run is at full
opacity — the claim's "at reduced opacity … holds … for each single-line
name-caption document" fails at the concrete caption `"A"`, size 40. -/
theorem nameCaption_shadow_not_reduced_cex :
    ¬ ShadowFillRuns ("rgb(255,255,255)") true [['A']]
        (nameCaptionRuns 40 "rgb(255,255,255)" ['A']) := by
  rintro ⟨sh, fi, rest, heq, hpair, -⟩
  have hop : sh.fillOpacity = 1 := by
    have h1 := congrArg (fun l => l.head?.map TextRun.fillOpacity) heq
    simp [nameCaptionRuns] at h1
    exact h1.symm
  have hlt := hpair.2.2.2.1
  simp [hop] at hlt

/-! ## Gate concurrency lemmas (C9) -/

/-- Arrivals at a ready gate each finish at once. -/
theorem gateFold_arrivals_ready (k : Nat) : ∀ (i : Bool) (c w d : Nat),
    (List.replicate k GateEvent.arrive).foldl gateStep ⟨true, i, c, w, d⟩ =
      ⟨true, i, c, w, d + k⟩ := by
  induction k with
  | zero => intro i c w d; rfl
  | succ k ih =>
    intro i c w d
    rw [List.replicate_succ, List.foldl_cons]
    have h1 : gateStep ⟨true, i, c, w, d⟩ .arrive = ⟨true, i, c, w, d + 1⟩ := rfl
    rw [h1, ih]
    have h2 : d + 1 + k = d + (k + 1) := by omega
    rw [h2]

/-- Arrivals while the attempt is in flight only join the waiters. -/
theorem gateFold_arrivals_inflight (k : Nat) : ∀ (c w d : Nat),
    (List.replicate k GateEvent.arrive).foldl gateStep ⟨false, true, c, w, d⟩ =
      ⟨false, true, c, w + k, d⟩ := by
  induction k with
  | zero => intro c w d; rfl
  | succ k ih =>
    intro c w d
    rw [List.replicate_succ, List.foldl_cons]
    have h1 : gateStep ⟨false, true, c, w, d⟩ .arrive = ⟨false, true, c, w + 1, d⟩ := rfl
    rw [h1, ih]
    have h2 : w + 1 + k = w + (k + 1) := by omega
    rw [h2]

/-- The number of initializations started always equals 1 when an attempt
exists and 0 before — an invariant of every event. -/
theorem gateFold_initCount_inv (es : List GateEvent) :
    ∀ s : GateRun, s.initCount = (if s.inflight then 1 else 0) →
      (es.foldl gateStep s).initCount =
        if (es.foldl gateStep s).inflight then 1 else 0 := by
  induction es with
  | nil => intro s h; exact h
  | cons e es ih =>
    intro s h
    rw [List.foldl_cons]
    refine ih _ ?_
    obtain ⟨r, f, c, w, d⟩ := s
    cases e
    · cases r
      · cases f
        · simp at h
          simp [gateStep, h]
        · simp at h
          simp [gateStep, h]
      · simpa [gateStep] using h
    · simp only [gateStep]
      split
      · simpa using h
      · exact h

/-- C9: across every interleaving of gate events at most one underlying
initialization is started; and on any first-time schedule — `a ≥ 1` callers
arrive while the gate is fresh or the attempt in flight, the single attempt
completes, then `b` more callers arrive — exactly one initialization runs,
the gate ends ready, and all `a + b` callers finish having observed the
ready state.  (The machine models both the `ensureResvgInitialized` promise
gate and the lazy `vipsPromise` gate of `getVips`/`initVips`.) -/
theorem gate_single_initialization (es : List GateEvent) (a b : Nat) (ha : 1 ≤ a) :
    (gateRun es).initCount ≤ 1 ∧
    gateRun (List.replicate a .arrive ++ GateEvent.complete :: List.replicate b .arrive) =
      ⟨true, true, 1, 0, a + b⟩ := by
  constructor
  · have h := gateFold_initCount_inv es ⟨false, false, 0, 0, 0⟩ (by simp)
    show (es.foldl gateStep ⟨false, false, 0, 0, 0⟩).initCount ≤ 1
    rw [h]
    split <;> omega
  · obtain ⟨a', rfl⟩ : ∃ a', a = a' + 1 := ⟨a - 1, by omega⟩
    have h1 : gateStep ⟨false, false, 0, 0, 0⟩ .arrive = ⟨false, true, 1, 1, 0⟩ := rfl
    have hinner : List.foldl gateStep ⟨false, false, 0, 0, 0⟩
        (List.replicate (a' + 1) GateEvent.arrive) = ⟨false, true, 1, 1 + a', 0⟩ := by
      rw [List.replicate_succ, List.foldl_cons, h1, gateFold_arrivals_inflight]
    have h2 : gateStep ⟨false, true, 1, 1 + a', 0⟩ .complete =
        ⟨true, true, 1, 0, 0 + (1 + a')⟩ := rfl
    rw [gateRun, List.foldl_append, hinner, List.foldl_cons, h2, gateFold_arrivals_ready]
    have h3 : 0 + (1 + a') + b = a' + 1 + b := by omega
    rw [h3]

/-- C9 witness: two concurrent first-time callers, the attempt completes,
one late caller — one initialization, three finished callers. -/
theorem gate_single_initialization_witness :
    gateRun [GateEvent.arrive, GateEvent.arrive, GateEvent.complete, GateEvent.arrive] =
      ⟨true, true, 1, 0, 3⟩ :=
  (gate_single_initialization [] 2 1 (by decide)).2

end Manosaba
